/-
  Verification of the Event API service (src/app.py) against its
  natural-language specification.

  Shallow embedding conventions:
  * Python dict / JSON values are modelled by the inductive `JValue`;
    a Python dict is an ordered association list of string keys.
  * WebSocket handles are opaque identities, modelled as `Conn := Nat`.
  * Python exceptions are modelled with `Except PyError`; a `try/except`
    block is explicit error handling on that monad.
  * Wall-clock timestamps (`datetime.utcnow().isoformat()`) are
    nondeterministic inputs, passed as an explicit `ts : String`
    parameter: one parameter per call of `utcnow()` in the source.
  * The transport primitive `websocket.send_json` is a parameter
    `send : Conn → JValue → Except PyError Unit`; handlers additionally
    return the list of (recipient, frame) pairs they emitted, so that
    delivery can be reasoned about.
-/
import Mathlib

namespace EventApi

/-- JSON-like values: the shape of data handled by the service
(payloads, frames, parsed inbound messages). An object is an ordered
association list, mirroring a Python dict's insertion order. -/
inductive JValue : Type where
  | str (s : String)
  | num (n : Int)
  | bool (b : Bool)
  | null
  | arr (elems : List JValue)
  | obj (fields : List (String × JValue))

/-- The Python-level exceptions and framework rejections that the
embedded code can produce. `validationError` stands for FastAPI's
422 response when a declared query-parameter constraint fails. -/
inductive PyError : Type where
  | valueError
  | typeError
  | keyError
  | transportError
  | jsonDecodeError
  | validationError
deriving DecidableEq

/-- WebSocket connection handles: opaque identities with equality. -/
abbrev Conn := Nat

/-- ASCII model of Python `str.lower` on one character. -/
def asciiLowerChar (c : Char) : Char :=
  if 65 ≤ c.toNat ∧ c.toNat ≤ 90 then Char.ofNat (c.toNat + 32) else c

/-- ASCII model of Python `str.lower`. -/
def pyLower (s : String) : String :=
  ⟨s.data.map asciiLowerChar⟩

/-- Python truthiness of an optional string (`if eventname:`):
`None` and the empty string are falsy. -/
def pyTruthyStr : Option String → Bool
  | none => false
  | some s => s ≠ ""

/-- State of the `ConnectionManager` singleton: its
`active_connections` list (src/app.py line 24). -/
structure MState : Type where
  active_connections : List Conn
deriving DecidableEq

/-- `try: act / except: pass` on one statement (src/app.py lines 38-41):
any raised error is swallowed. -/
def tryExceptPass (act : Except PyError Unit) : Except PyError Unit :=
  match act with
  | .ok u => .ok u
  | .error _ => .ok ()

/-- The loop body of `ConnectionManager.broadcast` (lines 37-41):
for each connection in order, attempt `send_json` under
`try/except: pass`; returns the list of attempted (recipient, frame)
sends. -/
def broadcastGo (send : Conn → JValue → Except PyError Unit) (msg : JValue) :
    List Conn → Except PyError (List (Conn × JValue))
  | [] => .ok []
  | c :: rest => do
    let _ ← tryExceptPass (send c msg)
    let tail ← broadcastGo send msg rest
    pure ((c, msg) :: tail)

/-- `ConnectionManager.broadcast` (lines 36-41): iterates over
`active_connections`, swallowing per-connection send errors; does not
modify `active_connections`. -/
def ConnectionManager.broadcast (send : Conn → JValue → Except PyError Unit)
    (st : MState) (msg : JValue) :
    Except PyError (MState × List (Conn × JValue)) := do
  let log ← broadcastGo send msg st.active_connections
  pure (st, log)

/-- `ConnectionManager.connect` (lines 26-28): accept, then append the
websocket to `active_connections`. -/
def ConnectionManager.connect (st : MState) (ws : Conn) : MState :=
  ⟨st.active_connections ++ [ws]⟩

/-- Python `list.remove`: removes the first occurrence of the element,
raising `ValueError` when the element is absent. -/
def listRemove (ws : Conn) : List Conn → Except PyError (List Conn)
  | [] => .error .valueError
  | c :: rest =>
    if c = ws then .ok rest
    else do
      let r ← listRemove ws rest
      pure (c :: r)

/-- `ConnectionManager.disconnect` (lines 30-31):
`self.active_connections.remove(websocket)`. -/
def ConnectionManager.disconnect (st : MState) (ws : Conn) :
    Except PyError MState := do
  let l ← listRemove ws st.active_connections
  pure ⟨l⟩

mutual

/-- Python `repr` of a JSON-like value (dicts/lists render with Python
punctuation); used by f-string formatting of non-string values. -/
def pyRepr : JValue → String
  | .str s => "\x27" ++ s ++ "\x27"
  | .num n => toString n
  | .bool b => if b then "True" else "False"
  | .null => "None"
  | .arr elems => "[" ++ pyReprElems elems ++ "]"
  | .obj fields => "\x7b" ++ pyReprFields fields ++ "\x7d"

def pyReprElems : List JValue → String
  | [] => ""
  | [x] => pyRepr x
  | x :: y :: rest => pyRepr x ++ ", " ++ pyReprElems (y :: rest)

def pyReprFields : List (String × JValue) → String
  | [] => ""
  | [p] => "\x27" ++ p.1 ++ "\x27: " ++ pyRepr p.2
  | p :: q :: rest => "\x27" ++ p.1 ++ "\x27: " ++ pyRepr p.2 ++ ", " ++ pyReprFields (q :: rest)

end

/-- Python `str` of a JSON-like value, as used by f-string
interpolation: a string renders as itself, anything else as its repr. -/
def pyStr : JValue → String
  | .str s => s
  | v => pyRepr v

/-- Python `in` for a string needle and a `List Char` haystack segment:
does the haystack start with the needle? -/
def charsStartWith : List Char → List Char → Bool
  | [], _ => true
  | _ :: _, [] => false
  | n :: ns, h :: hs => n == h && charsStartWith ns hs

/-- Substring search over char lists (Python `needle in haystack` for
strings). -/
def charsContain (needle : List Char) : List Char → Bool
  | [] => charsStartWith needle []
  | h :: hs => charsStartWith needle (h :: hs) || charsContain needle hs

/-- Python `needle in message` for a parsed JSON value: key containment
for dicts, element equality for lists, substring test for strings, and
`TypeError` for non-iterable scalars. -/
def pyContains (needle : String) : JValue → Except PyError Bool
  | .obj fields => .ok (fields.any (fun p => p.1 == needle))
  | .arr elems => .ok (elems.any (fun v =>
      match v with
      | .str s => s == needle
      | _ => false))
  | .str s => .ok (charsContain needle.data s.data)
  | _ => .error .typeError

/-- Python `message[k]` for a parsed JSON value: dict lookup (the only
case reached in the source after a successful `in` test on a dict);
`TypeError` on any non-dict. -/
def pyGetItem (k : String) : JValue → Except PyError JValue
  | .obj fields =>
    match fields.lookup k with
    | some v => .ok v
    | none => .error .keyError
  | _ => .error .typeError

/-- The dict comprehension
`{k: v for k, v in message.items() if k != "eventname"}`
(src/app.py line 199); only ever reached on a dict. -/
def pyItemsExcept (k : String) : JValue → List (String × JValue)
  | .obj fields => fields.filter (fun p => p.1 != k)
  | _ => []

/-- The `EventRequest` pydantic model (lines 64-69): a required
`eventname` plus arbitrary additional fields. -/
structure EventRequest : Type where
  eventname : String
  extra : List (String × JValue)

/-- The `EventResponse` pydantic model (lines 72-77). `data = none`
serializes to JSON `null`. -/
structure EventResponse : Type where
  status : String
  event : String
  message : String
  data : Option (List (String × JValue))
  timestamp : String

/-- Serialization of the `EventResponse.data` field: `None` becomes
JSON `null`, a dict becomes a JSON object. -/
def dataToJson : Option (List (String × JValue)) → JValue
  | none => .null
  | some fields => .obj fields

/-- Lines 142/145/149: `event_data if event_data else None` — Python
truthiness of a dict: the empty dict is falsy. -/
def pyTruthyData (event_data : List (String × JValue)) :
    Option (List (String × JValue)) :=
  if event_data.isEmpty then none else some event_data

/-- The event-name routing of `handle_event` (lines 139-149):
`match event_name.lower():` with reserved cases `"handshake"` and
`"ping"`, all other names falling through to the default
acknowledgment; each branch yields the `(message, response_data)`
pair. -/
def routeEvent (event_name : String) (event_data : List (String × JValue)) :
    String × Option (List (String × JValue)) :=
  match pyLower event_name with
  | "handshake" => ("Handshake acknowledged", pyTruthyData event_data)
  | "ping" => ("Pong", pyTruthyData event_data)
  | _ => ("Event \x27" ++ event_name ++ "\x27 received", pyTruthyData event_data)

/-- The `broadcast_message` dict built by `handle_event`
(lines 152-157). -/
def broadcastMessageOf (ev : EventRequest) (ts : String) : JValue :=
  .obj [("type", .str "event"),
        ("event", .str ev.eventname),
        ("data", .obj ev.extra),
        ("timestamp", .str ts)]

/-- The `EventResponse` value returned by `handle_event`
(lines 160-166). -/
def responseOf (ev : EventRequest) (ts : String) : EventResponse :=
  ⟨"success", ev.eventname, (routeEvent ev.eventname ev.extra).1,
   (routeEvent ev.eventname ev.extra).2, ts⟩

/-- `POST /event` handler `handle_event` (lines 118-166): route on the
lowered event name, broadcast the envelope to all live connections,
return the response. `ts` is the single `utcnow()` value generated at
line 132. -/
def handle_event (send : Conn → JValue → Except PyError Unit)
    (st : MState) (ts : String) (ev : EventRequest) :
    Except PyError (EventResponse × MState × List (Conn × JValue)) := do
  let (st2, log) ← ConnectionManager.broadcast send st (broadcastMessageOf ev ts)
  pure (responseOf ev ts, st2, log)

/-- The static informational dict returned by `GET /event` when no
(truthy) `eventname` query parameter is given (lines 105-114). -/
def apiInfoResponse : JValue :=
  .obj [("status", .str "success"),
        ("message", .str "Event API ready"),
        ("available_events", .arr [.str "handshake", .str "ping", .str "user_action", .str "custom"]),
        ("usage", .obj
          [("POST /event", .str "Send events with any JSON payload containing \x27eventname\x27"),
           ("GET /event?eventname=xyz", .str "Query events by name"),
           ("WebSocket /ws", .str "Connect for real-time event streaming")])]

/-- `GET /event` handler body `get_event` (lines 81-114): with a truthy
`eventname` it returns a static query-info dict (a self-described
placeholder), otherwise the static API-info dict. No event storage is
consulted — the module has none. -/
def get_event (eventname : Option String) (limit : Int) : JValue :=
  if pyTruthyStr eventname then
    .obj [("status", .str "success"),
          ("query", .obj [("eventname", .str (eventname.getD "")), ("limit", .num limit)]),
          ("message", .str ("Query for events with name \x27" ++ eventname.getD "" ++ "\x27")),
          ("note", .str "This is a placeholder - implement your event storage/retrieval logic here")]
  else
    apiInfoResponse

/-- The declared query parameter `limit: int = Query(10, ge=1, le=100)`
(line 84) together with FastAPI's semantics for it: a missing value
defaults to 10; a value outside [1, 100] is rejected with a 422
validation error (not clamped) before the handler body runs. -/
def routeGetEvent (eventname : Option String) (limit : Option Int) :
    Except PyError JValue :=
  let l := limit.getD 10
  if 1 ≤ l ∧ l ≤ 100 then .ok (get_event eventname l)
  else .error .validationError

/-- `GET /health` handler (lines 247-254): reports the length of
`active_connections`. -/
def health_check (st : MState) (ts : String) : JValue :=
  .obj [("status", .str "healthy"),
        ("websocket_connections", .num st.active_connections.length),
        ("timestamp", .str ts)]

/-- The welcome frame sent right after a WebSocket connects
(lines 180-185). -/
def welcomeFrame (ts : String) : JValue :=
  .obj [("type", .str "connection"),
        ("status", .str "connected"),
        ("message", .str "WebSocket connection established"),
        ("timestamp", .str ts)]

/-- The error frame for invalid inbound JSON (lines 231-235). -/
def errorFrame (ts : String) : JValue :=
  .obj [("type", .str "error"),
        ("message", .str "Invalid JSON format"),
        ("timestamp", .str ts)]

/-- The echo frame for parsed inbound messages without an `eventname`
(lines 224-228). -/
def echoFrame (message : JValue) (ts : String) : JValue :=
  .obj [("type", .str "echo"),
        ("data", message),
        ("timestamp", .str ts)]

/-- The confirmation frame sent back to the sender of an inbound event
(lines 215-221); the `message` field is an f-string over the raw
`eventname` value. -/
def confirmationFrame (event_name : JValue) (ts : String) : JValue :=
  .obj [("type", .str "confirmation"),
        ("status", .str "success"),
        ("event", event_name),
        ("message", .str ("Event \x27" ++ pyStr event_name ++ "\x27 broadcast to all connections")),
        ("timestamp", .str ts)]

/-- The broadcast frame for an inbound WebSocket event
(lines 205-211). -/
def wsBroadcastFrame (event_name : JValue) (event_data : List (String × JValue))
    (ts : String) : JValue :=
  .obj [("type", .str "event"),
        ("event", event_name),
        ("data", .obj event_data),
        ("timestamp", .str ts),
        ("source", .str "websocket")]

/-- The notification frame broadcast when a client disconnects
(lines 240-244). -/
def notificationFrame (ts : String) : JValue :=
  .obj [("type", .str "notification"),
        ("message", .str "A client disconnected"),
        ("timestamp", .str ts)]

/-- The connection-open phase of `websocket_endpoint` (lines 177-185):
register the connection, then send the welcome frame to it alone. -/
def wsOnConnect (send : Conn → JValue → Except PyError Unit)
    (st : MState) (ws : Conn) (ts : String) :
    Except PyError (MState × List (Conn × JValue)) := do
  let st1 := ConnectionManager.connect st ws
  let _ ← send ws (welcomeFrame ts)
  pure (st1, [(ws, welcomeFrame ts)])

/-- One iteration of the receive loop of `websocket_endpoint`
(lines 188-235). `parsed` is the result of `json.loads` on the
received text: `none` models a raised `json.JSONDecodeError` (the only
exception the inner `except` catches); any other exception — e.g. the
`TypeError` from `"eventname" in message` on a non-iterable, or from
subscripting a non-dict — propagates. `ts` is the single `utcnow()`
value of whichever branch runs. Returns the updated manager state and
the (recipient, frame) sends; `.ok` means the `while True` loop
continues with the next message. -/
def wsHandleMessage (send : Conn → JValue → Except PyError Unit)
    (st : MState) (sender : Conn) (ts : String) (parsed : Option JValue) :
    Except PyError (MState × List (Conn × JValue)) :=
  match parsed with
  | none => do
    let _ ← send sender (errorFrame ts)
    pure (st, [(sender, errorFrame ts)])
  | some message => do
    let has ← pyContains "eventname" message
    if has then
      let event_name ← pyGetItem "eventname" message
      let event_data := pyItemsExcept "eventname" message
      let (st2, blog) ← ConnectionManager.broadcast send st
        (wsBroadcastFrame event_name event_data ts)
      let _ ← send sender (confirmationFrame event_name ts)
      pure (st2, blog ++ [(sender, confirmationFrame event_name ts)])
    else do
      let _ ← send sender (echoFrame message ts)
      pure (st, [(sender, echoFrame message ts)])

/-- The receive loop of `websocket_endpoint` over a finite trace of
inbound messages, each given with the timestamp its branch generates:
messages are processed in order for as long as no uncaught exception
is raised. -/
def wsLoop (send : Conn → JValue → Except PyError Unit)
    (st : MState) (sender : Conn) :
    List (String × Option JValue) → Except PyError (MState × List (Conn × JValue))
  | [] => .ok (st, [])
  | (ts, parsed) :: rest => do
    let (st1, out1) ← wsHandleMessage send st sender ts parsed
    let (st2, out2) ← wsLoop send st1 sender rest
    pure (st2, out1 ++ out2)

/-- The `WebSocketDisconnect` branch of `websocket_endpoint`
(lines 237-244): deregister the connection, then broadcast a
notification. -/
def wsOnDisconnect (send : Conn → JValue → Except PyError Unit)
    (st : MState) (ws : Conn) (ts : String) :
    Except PyError (MState × List (Conn × JValue)) := do
  let st1 ← ConnectionManager.disconnect st ws
  ConnectionManager.broadcast send st1 (notificationFrame ts)

/-- Field access in a JSON object frame (specification-side accessor,
used only to state properties of frames). -/
def jget (j : JValue) (k : String) : Option JValue :=
  match j with
  | .obj fields => fields.lookup k
  | _ => none

/-- A transport whose sends always succeed; used to evaluate the
handlers on concrete inputs. -/
def sendOk : Conn → JValue → Except PyError Unit := fun _ _ => .ok ()

/-- A transport where connection 1's sends permanently fail with a
transport error and all other sends succeed. -/
def sendFail1 : Conn → JValue → Except PyError Unit :=
  fun c _ => if c = 1 then .error .transportError else .ok ()

/-- A sample broadcast payload. -/
def sampleMsg : JValue := .obj [("type", .str "event"), ("event", .str "demo")]

/-- The result of broadcasting `sampleMsg` over live connections
[0, 1, 2] when connection 1's transport permanently fails. -/
def broadcastFail1Result : Except PyError (MState × List (Conn × JValue)) :=
  ConnectionManager.broadcast sendFail1 ⟨[0, 1, 2]⟩ sampleMsg

/-- The manager state after that broadcast (the error branch is
unreachable). -/
def broadcastFail1After : MState :=
  match broadcastFail1Result with
  | .ok (st, _) => st
  | .error _ => ⟨[]⟩

/-- A `POST /event` ingestion with an empty payload, one live
connection, and a healthy transport. -/
def emptyPayloadRun : Except PyError (EventResponse × MState × List (Conn × JValue)) :=
  handle_event sendOk ⟨[0]⟩ "t0" ⟨"x", []⟩

/-- One receive-loop iteration where the inbound text parsed as the
JSON number 5 (e.g. the client sent the text "5"). -/
def nonDictRun : Except PyError (MState × List (Conn × JValue)) :=
  wsHandleMessage sendOk ⟨[7]⟩ 7 "t" (some (.num 5))

/-- A swallowed `try/except: pass` statement always completes normally. -/
theorem tryExceptPass_eq (act : Except PyError Unit) : tryExceptPass act = .ok () := by
  cases act with
  | ok u => cases u; rfl
  | error e => rfl

/-- The broadcast loop attempts one send per connection, in list order,
and never raises, whatever the per-connection transport does. -/
theorem broadcastGo_eq (send : Conn → JValue → Except PyError Unit) (msg : JValue) :
    ∀ conns : List Conn,
      broadcastGo send msg conns = .ok (conns.map (fun c => (c, msg))) := by
  intro conns
  induction conns with
  | nil => rfl
  | cons c rest ih =>
    simp only [broadcastGo, tryExceptPass_eq, ih]
    rfl

/-- `ConnectionManager.broadcast` returns normally, leaves
`active_connections` untouched, and attempts one send per connection. -/
theorem broadcast_eq (send : Conn → JValue → Except PyError Unit)
    (st : MState) (msg : JValue) :
    ConnectionManager.broadcast send st msg =
      .ok (st, st.active_connections.map (fun c => (c, msg))) := by
  simp only [ConnectionManager.broadcast, broadcastGo_eq]
  rfl

/-- The second component of the routing result is the same in every
branch: Python truthiness of the extra fields. -/
theorem routeEvent_snd (name : String) (data : List (String × JValue)) :
    (routeEvent name data).2 = pyTruthyData data := by
  unfold routeEvent
  split <;> rfl

/-- Python `list.remove` raises `ValueError` when the element is
absent. -/
theorem listRemove_absent (ws : Conn) :
    ∀ l : List Conn, ws ∉ l → listRemove ws l = .error .valueError := by
  intro l
  induction l with
  | nil => intro _; rfl
  | cons c rest ih =>
    intro h
    rw [List.mem_cons] at h
    push_neg at h
    have hne : ¬(c = ws) := fun hc => h.1 hc.symm
    simp only [listRemove, if_neg hne, ih h.2]
    rfl

/-- Claim C1 (code bug): the module has no event store at all.
Ingesting the event `a` succeeds (it is only broadcast — to an empty
connection list here — and acknowledged), and a subsequent
`GET /event` with no name filter returns the static API-info dict,
which carries no stored events; `get_event` is a self-described
placeholder, so a query can never return the ingested events in any
order. -/
theorem claim1_no_event_store_eval :
    handle_event sendOk ⟨[]⟩ "2024-01-01T00:00:00" ⟨"a", []⟩ =
      .ok (⟨"success", "a", "Event \x27a\x27 received", none, "2024-01-01T00:00:00"⟩,
           ⟨[]⟩, []) ∧
    routeGetEvent none (some 1) = .ok apiInfoResponse :=
  ⟨rfl, rfl⟩

/-- Claim C2 (confirmed): for every transport behaviour, broadcasting
attempts exactly one delivery to every connection in the live list, in
list order, and returns normally to its caller — a raising send is
swallowed by the per-connection `try/except: pass`. -/
theorem claim2_broadcast_failure_isolated
    (send : Conn → JValue → Except PyError Unit) (st : MState) (msg : JValue) :
    ConnectionManager.broadcast send st msg =
      .ok (st, st.active_connections.map (fun c => (c, msg))) :=
  broadcast_eq send st msg

/-- Claim C3 (counterexample): with live connections [0, 1, 2] and
connection 1's transport permanently failing, the broadcast delivers
to 0 and 2, yet afterwards connection 1 is still in
`active_connections` and the health check still reports 3 live
connections — the failing connection is never deregistered, contrary
to the claim. -/
theorem claim3_counterexample :
    broadcastFail1Result =
      .ok (⟨[0, 1, 2]⟩, [(0, sampleMsg), (1, sampleMsg), (2, sampleMsg)]) ∧
    sendFail1 0 sampleMsg = .ok () ∧
    sendFail1 1 sampleMsg = .error .transportError ∧
    sendFail1 2 sampleMsg = .ok () ∧
    (1 : Conn) ∈ broadcastFail1After.active_connections ∧
    health_check broadcastFail1After "t" =
      .obj [("status", .str "healthy"),
            ("websocket_connections", .num 3),
            ("timestamp", .str "t")] := by
  refine ⟨rfl, rfl, rfl, rfl, ?_, rfl⟩
  decide

/-- Claim C3 (amended): a broadcast never changes the live set — the
failing connection remains registered and the reported live count
afterwards still includes it. -/
theorem claim3_amended_no_deregistration
    (send : Conn → JValue → Except PyError Unit) (st st2 : MState)
    (msg : JValue) (log : List (Conn × JValue))
    (h : ConnectionManager.broadcast send st msg = .ok (st2, log)) :
    st2 = st := by
  rw [broadcast_eq] at h
  exact (congrArg Prod.fst (Except.ok.inj h)).symm

/-- Witness for the amended claim C3, at the failing-transport
scenario of the counterexample. -/
theorem claim3_amended_witness : broadcastFail1After = ⟨[0, 1, 2]⟩ :=
  claim3_amended_no_deregistration sendFail1 ⟨[0, 1, 2]⟩ broadcastFail1After
    sampleMsg [(0, sampleMsg), (1, sampleMsg), (2, sampleMsg)] rfl

/-- Claim C4 (counterexample): the `limit` query parameter is
validated, not clamped. `limit = 0` and `limit = 1000` are rejected
with a 422 validation error, which is not the behaviour of
`limit = 1` and `limit = 100` respectively. -/
theorem claim4_counterexample :
    routeGetEvent (some "x") (some 0) = .error .validationError ∧
    routeGetEvent (some "x") (some 1) = .ok (get_event (some "x") 1) ∧
    routeGetEvent (some "x") (some 0) ≠ routeGetEvent (some "x") (some 1) ∧
    routeGetEvent (some "x") (some 1000) = .error .validationError ∧
    routeGetEvent (some "x") (some 100) = .ok (get_event (some "x") 100) ∧
    routeGetEvent (some "x") (some 1000) ≠ routeGetEvent (some "x") (some 100) := by
  refine ⟨rfl, rfl, fun h => ?_, rfl, rfl, fun h => ?_⟩ <;> exact Except.noConfusion h

/-- Claim C4 (amended): `limit` defaults to 10 and is accepted exactly
on the inclusive range [1, 100]; out-of-range values are rejected with
a validation error before the handler runs, rather than clamped. -/
theorem claim4_amended_validation (eventname : Option String) (l : Int) :
    ((1 ≤ l ∧ l ≤ 100) → routeGetEvent eventname (some l) = .ok (get_event eventname l)) ∧
    ((l < 1 ∨ 100 < l) → routeGetEvent eventname (some l) = .error .validationError) ∧
    routeGetEvent eventname none = .ok (get_event eventname 10) := by
  refine ⟨fun h => ?_, fun h => ?_, ?_⟩
  · simp only [routeGetEvent, Option.getD_some, if_pos h]
  · have hnot : ¬(1 ≤ l ∧ l ≤ 100) := by omega
    simp only [routeGetEvent, Option.getD_some, if_neg hnot]
  · rfl

/-- Witness for the amended claim C4: an in-range limit is accepted
unchanged and an out-of-range limit is rejected. -/
theorem claim4_amended_witness :
    routeGetEvent (some "k") (some 50) = .ok (get_event (some "k") 50) ∧
    routeGetEvent (some "k") (some 0) = .error .validationError :=
  ⟨(claim4_amended_validation (some "k") 50).1 (by decide),
   (claim4_amended_validation (some "k") 0).2.1 (by decide)⟩

/-- Claim C5 (counterexample): ingesting an event with an empty
payload sends each live connection a broadcast message whose `data` is
the empty JSON object, while the envelope returned to the caller has
`data = None`, which serializes to JSON `null` — so the broadcast
payload does not equal the returned envelope's payload on this
input. -/
theorem claim5_counterexample :
    emptyPayloadRun =
      .ok (⟨"success", "x", "Event \x27x\x27 received", none, "t0"⟩, ⟨[0]⟩,
        [(0, JValue.obj [("type", .str "event"), ("event", .str "x"),
                         ("data", .obj []), ("timestamp", .str "t0")])]) ∧
    dataToJson none = JValue.null ∧
    JValue.null ≠ JValue.obj [] :=
  ⟨rfl, rfl, by simp⟩

/-- Claim C5 (amended): each connection in the live list is sent
exactly one broadcast message (one per list entry, in order); its
`event` and `timestamp` fields equal the returned envelope's `event`
and `timestamp` (a single timestamp is shared), and its `data` field
is the submitted extra fields; the returned envelope's `data` is those
same fields when they are nonempty, and `None` (JSON `null`) when the
payload is empty. -/
theorem claim5_amended_fanout (send : Conn → JValue → Except PyError Unit)
    (st : MState) (ts : String) (ev : EventRequest) :
    handle_event send st ts ev =
      .ok (responseOf ev ts, st,
        st.active_connections.map (fun c => (c, broadcastMessageOf ev ts))) ∧
    jget (broadcastMessageOf ev ts) "event" = some (.str (responseOf ev ts).event) ∧
    jget (broadcastMessageOf ev ts) "timestamp" = some (.str (responseOf ev ts).timestamp) ∧
    (responseOf ev ts).timestamp = ts ∧
    jget (broadcastMessageOf ev ts) "data" = some (.obj ev.extra) ∧
    (responseOf ev ts).data = pyTruthyData ev.extra := by
  refine ⟨?_, rfl, rfl, rfl, rfl, ?_⟩
  · simp only [handle_event, broadcast_eq]
    rfl
  · exact routeEvent_snd ev.eventname ev.extra

/-- Claim C6 (confirmed): event-name routing is a total pure function,
case-insensitive in its decision: any casing of `handshake` or `ping`
yields the distinguished acknowledgment, every other name yields the
default `Event <name> received` acknowledgment (with the original
casing of the name); the non-message component of the routing result
is the same in every branch, and the broadcast payload is the
submitted extra fields regardless of the name. -/
theorem claim6_routing (name : String) (data : List (String × JValue)) :
    (pyLower name = "handshake" →
      routeEvent name data = ("Handshake acknowledged", pyTruthyData data)) ∧
    (pyLower name = "ping" →
      routeEvent name data = ("Pong", pyTruthyData data)) ∧
    (pyLower name ≠ "handshake" → pyLower name ≠ "ping" →
      routeEvent name data = ("Event \x27" ++ name ++ "\x27 received", pyTruthyData data)) ∧
    (routeEvent name data).2 = pyTruthyData data ∧
    (∀ ts : String, jget (broadcastMessageOf ⟨name, data⟩ ts) "data" = some (.obj data)) := by
  refine ⟨fun h => ?_, fun h => ?_, fun h1 h2 => ?_, routeEvent_snd name data, fun ts => rfl⟩
  · unfold routeEvent
    rw [h]
    rfl
  · unfold routeEvent
    rw [h]
    rfl
  · unfold routeEvent
    split
    next heq => exact absurd heq h1
    next heq => exact absurd heq h2
    next => rfl

/-- Witness for claim C6: mixed-case reserved names and an ordinary
name, routed on concrete inputs. -/
theorem claim6_routing_witness :
    routeEvent "HandShaKe" [] = ("Handshake acknowledged", none) ∧
    routeEvent "PING" [("a", .num 1)] = ("Pong", some [("a", .num 1)]) ∧
    routeEvent "reboot" [] = ("Event \x27reboot\x27 received", none) :=
  ⟨(claim6_routing "HandShaKe" []).1 rfl,
   (claim6_routing "PING" [("a", .num 1)]).2.1 rfl,
   (claim6_routing "reboot" []).2.2.1 (by decide) (by decide)⟩

/-- Claim C7 (counterexample): deregistering a connection that is not
in the live set is not a no-op — `active_connections.remove` raises
`ValueError`. -/
theorem claim7_counterexample :
    ConnectionManager.disconnect ⟨[5]⟩ 0 = .error .valueError ∧
    ConnectionManager.disconnect ⟨[5]⟩ 0 ≠ .ok ⟨[5]⟩ :=
  ⟨rfl, fun h => Except.noConfusion h⟩

/-- Claim C7 (amended): deregistering a connection that is not in the
live set raises `ValueError` (the live set itself is not modified, but
the call is an error, not a no-op). -/
theorem claim7_amended_absent_raises (st : MState) (ws : Conn)
    (h : ws ∉ st.active_connections) :
    ConnectionManager.disconnect st ws = .error .valueError := by
  simp only [ConnectionManager.disconnect, listRemove_absent ws st.active_connections h]
  rfl

/-- Witness for the amended claim C7: connection 9 is not among
[3, 4], and deregistering it raises `ValueError`. -/
theorem claim7_amended_witness :
    ConnectionManager.disconnect ⟨[3, 4]⟩ 9 = .error .valueError :=
  claim7_amended_absent_raises ⟨[3, 4]⟩ 9 (by decide)

/-- Claim C8 (confirmed): when the inbound text is not valid JSON and
the sender's own transport is healthy, the sender — and only the
sender — receives the distinguished `error` frame, the manager state
is unchanged, no exception escapes the loop body, and the subsequent
messages of the trace are processed exactly as they would have been
without the malformed one. -/
theorem claim8_invalid_json_isolated (send : Conn → JValue → Except PyError Unit)
    (st : MState) (sender : Conn) (ts : String)
    (rest : List (String × Option JValue))
    (hsend : send sender (errorFrame ts) = .ok ()) :
    wsHandleMessage send st sender ts none = .ok (st, [(sender, errorFrame ts)]) ∧
    wsLoop send st sender ((ts, none) :: rest) =
      (match wsLoop send st sender rest with
       | .ok (st2, out) => .ok (st2, (sender, errorFrame ts) :: out)
       | .error e => .error e) := by
  have hstep : wsHandleMessage send st sender ts none =
      .ok (st, [(sender, errorFrame ts)]) := by
    simp only [wsHandleMessage, hsend]
    rfl
  refine ⟨hstep, ?_⟩
  simp only [wsLoop, hstep, Bind.bind, Except.bind]
  cases hrest : wsLoop send st sender rest with
  | ok p => cases p with | mk st2 out => rfl
  | error e => rfl

/-- Witness for claim C8: with one live connection 3, an invalid-JSON
message followed by a well-formed one. -/
theorem claim8_witness :
    wsHandleMessage sendOk ⟨[3]⟩ 3 "t" none = .ok (⟨[3]⟩, [(3, errorFrame "t")]) ∧
    wsLoop sendOk ⟨[3]⟩ 3 [("t", none), ("t2", some (.obj []))] =
      (match wsLoop sendOk ⟨[3]⟩ 3 [("t2", some (.obj []))] with
       | .ok (st2, out) => .ok (st2, (3, errorFrame "t") :: out)
       | .error e => .error e) :=
  claim8_invalid_json_isolated sendOk ⟨[3]⟩ 3 "t" [("t2", some (.obj []))] rfl

/-- Claim C9 (confirmed): immediately after registration — before any
other traffic on that connection — the new subscriber, and only the
new subscriber, is sent exactly one welcome frame, of type
`connection` with status `connected`. -/
theorem claim9_welcome (send : Conn → JValue → Except PyError Unit)
    (st : MState) (ws : Conn) (ts : String)
    (hsend : send ws (welcomeFrame ts) = .ok ()) :
    wsOnConnect send st ws ts =
      .ok (⟨st.active_connections ++ [ws]⟩, [(ws, welcomeFrame ts)]) ∧
    jget (welcomeFrame ts) "type" = some (.str "connection") ∧
    jget (welcomeFrame ts) "status" = some (.str "connected") := by
  refine ⟨?_, rfl, rfl⟩
  simp only [wsOnConnect, ConnectionManager.connect, hsend]
  rfl

/-- Witness for claim C9: connection 4 joins when [0, 1] are live. -/
theorem claim9_welcome_witness :
    wsOnConnect sendOk ⟨[0, 1]⟩ 4 "t" =
      .ok (⟨[0, 1] ++ [4]⟩, [(4, welcomeFrame "t")]) ∧
    jget (welcomeFrame "t") "type" = some (.str "connection") ∧
    jget (welcomeFrame "t") "status" = some (.str "connected") :=
  claim9_welcome sendOk ⟨[0, 1]⟩ 4 "t" rfl

/-- Claim C10 (counterexample): the inbound text "5" parses as the
JSON number 5 and contains no `eventname` key, yet it is not echoed —
`"eventname" in message` raises an uncaught `TypeError`, which escapes
the receive loop. -/
theorem claim10_counterexample :
    nonDictRun = .error .typeError ∧
    nonDictRun ≠ .ok (⟨[7]⟩, [(7, echoFrame (.num 5) "t")]) :=
  ⟨rfl, fun h => Except.noConfusion h⟩

/-- Claim C10 (amended): an inbound message that parses as a JSON
value in which Python's membership test finds no `eventname` — an
object with no `eventname` key, an array with no `eventname` string
element, or a string not containing `eventname` as a substring — is
echoed back, only to the sender whose transport is healthy, as a
frame of type `echo` carrying the parsed message; it is not broadcast
and triggers no event processing. A non-iterable scalar JSON value
(number, boolean or null), on which the membership test itself raises
`TypeError`, is instead not echoed: the `TypeError` propagates
uncaught, as the counterexample shows. -/
theorem claim10_amended_echo (send : Conn → JValue → Except PyError Unit)
    (st : MState) (sender : Conn) (ts : String) (message : JValue) :
    (pyContains "eventname" message = .ok false →
      send sender (echoFrame message ts) = .ok () →
      wsHandleMessage send st sender ts (some message) =
        .ok (st, [(sender, echoFrame message ts)])) ∧
    (pyContains "eventname" message = .error .typeError →
      wsHandleMessage send st sender ts (some message) = .error .typeError) := by
  refine ⟨fun hkey hsend => ?_, fun hkey => ?_⟩
  · simp only [wsHandleMessage, hkey, hsend, Bind.bind, Except.bind]
    rfl
  · simp only [wsHandleMessage, hkey, Bind.bind, Except.bind]

/-- Witness for the amended claim C10: with two live connections and
sender 7, an object without an `eventname` key, an array without an
`eventname` string element, and a string not containing `eventname`
are each echoed back to the sender only, while a scalar (the boolean
`true`) raises `TypeError`. -/
theorem claim10_amended_witness :
    wsHandleMessage sendOk ⟨[7, 8]⟩ 7 "t" (some (.obj [("a", .num 1)])) =
      .ok (⟨[7, 8]⟩, [(7, echoFrame (.obj [("a", .num 1)]) "t")]) ∧
    wsHandleMessage sendOk ⟨[7, 8]⟩ 7 "t" (some (.arr [.num 1, .str "x"])) =
      .ok (⟨[7, 8]⟩, [(7, echoFrame (.arr [.num 1, .str "x"]) "t")]) ∧
    wsHandleMessage sendOk ⟨[7, 8]⟩ 7 "t" (some (.str "hello")) =
      .ok (⟨[7, 8]⟩, [(7, echoFrame (.str "hello") "t")]) ∧
    wsHandleMessage sendOk ⟨[7, 8]⟩ 7 "t" (some (.bool true)) = .error .typeError :=
  ⟨(claim10_amended_echo sendOk ⟨[7, 8]⟩ 7 "t" (.obj [("a", .num 1)])).1 rfl rfl,
   (claim10_amended_echo sendOk ⟨[7, 8]⟩ 7 "t" (.arr [.num 1, .str "x"])).1 rfl rfl,
   (claim10_amended_echo sendOk ⟨[7, 8]⟩ 7 "t" (.str "hello")).1 rfl rfl,
   (claim10_amended_echo sendOk ⟨[7, 8]⟩ 7 "t" (.bool true)).2 rfl⟩

end EventApi
